import Mathlib

/-!
Verification of the notification, cart and password-reset behaviour of the
marketplace backend (src/src/index.ts) against its natural-language
specification.  The relevant route handlers are shallowly embedded as pure
functions over an explicit database state `DB`; the Postgres pool is modelled
by that state, and the possibility that an `INSERT INTO notificaciones`
statement fails at the storage layer for a non-referential reason (network,
disk, a concurrent delete of the owner row) is modelled by an explicit oracle
`falloEscritura : Nat → Bool` passed to the embedded `guardarNotificacionBD`.
-/

/-- Error raised by the relational store on an `INSERT INTO notificaciones`:
either a foreign-key (referential) violation on `ID_usuario`, or any other
storage-layer failure. -/
inductive DBError where
  | referential
  | transient
  deriving DecidableEq

/-- A row of the `usuario` table. -/
structure Usuario where
  id : Nat
  nombre : String
  correo : String
  contrasena : String
  telefono : String
  deriving DecidableEq

/-- A row of the `com_ventas` table (only the columns the claims need). -/
structure Publicacion where
  id : Nat
  nombreArticulo : String
  idUsuario : Nat
  deriving DecidableEq

/-- A row of the `notificaciones` table.  `data` holds the JSON payload
opaquely as a string (the code stores `JSON.stringify(data)`). -/
structure Notificacion where
  id : Nat
  idUsuario : Nat
  titulo : String
  cuerpo : String
  leida : Bool
  fechaEnvio : Nat
  data : Option String
  deriving DecidableEq

/-- The server state: the relational tables plus the in-process
`codigosReset` map used by the password-reset flow.  `nextId` is the serial
counter behind `ID_notificacion`; `carrito` rows are `(ID_usuario,
ID_publicacion)` pairs. -/
structure DB where
  usuarios : List Usuario
  publicaciones : List Publicacion
  carrito : List (Nat × Nat)
  notificaciones : List Notificacion
  nextId : Nat
  codigosReset : List (String × String)
  deriving DecidableEq

/-- `Map.get` of the in-process reset-code map. -/
def mapGet (m : List (String × String)) (k : String) : Option String :=
  match m with
  | [] => none
  | (k2, v) :: t => if k2 = k then some v else mapGet t k

/-- `Map.set` of the in-process reset-code map (replaces any previous binding). -/
def mapSet (m : List (String × String)) (k v : String) : List (String × String) :=
  (k, v) :: m.filter (fun p => !(p.1 == k))

/-- `Map.delete` of the in-process reset-code map. -/
def mapDelete (m : List (String × String)) (k : String) : List (String × String) :=
  m.filter (fun p => !(p.1 == k))

/-- Embeds `guardarNotificacionBD` (index.ts lines 466-491): one
`INSERT INTO notificaciones ... RETURNING ID_notificacion`.  The insert
violates the foreign key exactly when `idUsuario` is not a row of `usuario`;
`falloEscritura` is the oracle for any other storage-layer failure of a
statement that passes the foreign-key check.  On any failure the function
rethrows (`throw error` in the source), leaving the table unchanged. -/
def guardarNotificacionBD (falloEscritura : Nat → Bool) (db : DB) (idUsuario : Nat)
    (titulo cuerpo : String) (data : Option String) (fecha : Nat) :
    Except DBError (Nat × DB) :=
  if db.usuarios.any (fun u => u.id == idUsuario) then
    if falloEscritura idUsuario then
      Except.error DBError.transient
    else
      Except.ok (db.nextId,
        { db with
          notificaciones :=
            { id := db.nextId, idUsuario := idUsuario, titulo := titulo,
              cuerpo := cuerpo, leida := false, fechaEnvio := fecha,
              data := data } :: db.notificaciones,
          nextId := db.nextId + 1 })
  else
    Except.error DBError.referential

/-- Title of the seller notification of /agregar-carrito (index.ts line 548). -/
def tituloCarrito : String := "¡Nuevo interés en tu artículo! 🛒"

/-- Body of the seller notification of /agregar-carrito (index.ts line 549). -/
def cuerpoCarrito (nombreArticulo : String) : String :=
  "Alguien agregó \"" ++ nombreArticulo ++ "\" al carrito. Revisa tus ventas."

/-- Title of the buyer notification of /marcar-vendido (index.ts line 661). -/
def tituloVendido : String := "Artículo ya no disponible ❌"

/-- Body of the buyer notification of /marcar-vendido (index.ts line 662). -/
def cuerpoVendido (nombreArticulo : String) : String :=
  "El artículo \"" ++ nombreArticulo ++ "\" que tenías en tu carrito ya fue vendido."

/-- HTTP outcome of POST /agregar-carrito. -/
structure RespuestaCarrito where
  status : Nat
  db : DB
  notificacionCreada : Bool
  deriving DecidableEq

/-- The state after `INSERT INTO carrito` (index.ts lines 535-538). -/
def dbConCarrito (db : DB) (idUsuario idPublicacion : Nat) : DB :=
  { db with carrito := (idUsuario, idPublicacion) :: db.carrito }

/-- Embeds POST /agregar-carrito (index.ts lines 494-571).  A falsy (zero) id
is rejected with 400; then the existence checks run in the order of the source;
the cart row is inserted, and the seller is notified only when the seller id
is truthy and differs from the acting user.  A thrown notification-write
error reaches the catch of the handler, which responds 500 (the cart row stays). -/
def agregarCarrito (falloEscritura : Nat → Bool) (db : DB)
    (idUsuario idPublicacion fecha : Nat) : RespuestaCarrito :=
  if idUsuario == 0 || idPublicacion == 0 then
    { status := 400, db := db, notificacionCreada := false }
  else if !(db.usuarios.any (fun u => u.id == idUsuario)) then
    { status := 404, db := db, notificacionCreada := false }
  else if !(db.publicaciones.any (fun p => p.id == idPublicacion)) then
    { status := 404, db := db, notificacionCreada := false }
  else if db.carrito.any (fun p => p.1 == idUsuario && p.2 == idPublicacion) then
    { status := 409, db := db, notificacionCreada := false }
  else
    match db.publicaciones.find? (fun p => p.id == idPublicacion) with
    | none => { status := 404, db := db, notificacionCreada := false }
    | some pub =>
      if !(db.usuarios.any (fun u => u.id == pub.idUsuario)) then
        { status := 404, db := db, notificacionCreada := false }
      else
        if pub.idUsuario != 0 && pub.idUsuario != idUsuario then
          match guardarNotificacionBD falloEscritura
              (dbConCarrito db idUsuario idPublicacion) pub.idUsuario
              tituloCarrito (cuerpoCarrito pub.nombreArticulo)
              (some "interes_carrito") fecha with
          | Except.error _ =>
            { status := 500, db := dbConCarrito db idUsuario idPublicacion,
              notificacionCreada := false }
          | Except.ok (_, db2) => { status := 201, db := db2, notificacionCreada := true }
        else
          { status := 201, db := dbConCarrito db idUsuario idPublicacion,
            notificacionCreada := false }

/-- HTTP outcome of DELETE /marcar-vendido/:id. -/
structure RespuestaVendido where
  status : Nat
  db : DB
  notificacionesCreadas : Nat
  deriving DecidableEq

/-- The `compradores` query of /marcar-vendido: cart rows for the publication
joined with `usuario` (a cart row whose user has no `usuario` row contributes
nothing to the join). -/
def compradoresDe (db : DB) (idPublicacion : Nat) : List Nat :=
  ((db.carrito.filter (fun p => p.2 == idPublicacion)).map (fun p => p.1)).filter
    (fun c => db.usuarios.any (fun u => u.id == c))

/-- The state after the BEGIN/DELETE/DELETE/COMMIT transaction of
/marcar-vendido: the publication row and every cart row referencing it are
removed together. -/
def dbTrasEliminar (db : DB) (idPublicacion : Nat) : DB :=
  { db with
    publicaciones := db.publicaciones.filter (fun p => !(p.id == idPublicacion)),
    carrito := db.carrito.filter (fun p => !(p.2 == idPublicacion)) }

/-- Embeds the buyer-notification loop of /marcar-vendido (index.ts lines
655-672).  There is no try/catch inside the loop: the first failing
`guardarNotificacionBD` rethrows, so the loop stops and the exception carries
the state reached so far (`Except.error`). -/
def notificarCompradores (falloEscritura : Nat → Bool)
    (vendedor idPublicacion fecha : Nat) (nombreArticulo : String) :
    List Nat → DB → Nat → Except DB (DB × Nat)
  | [], db, n => Except.ok (db, n)
  | c :: resto, db, n =>
    if c != vendedor then
      match guardarNotificacionBD falloEscritura db c
          tituloVendido (cuerpoVendido nombreArticulo)
          (some "articulo_vendido") fecha with
      | Except.error _ => Except.error db
      | Except.ok (_, db2) =>
        notificarCompradores falloEscritura vendedor idPublicacion fecha
          nombreArticulo resto db2 (n + 1)
    else
      notificarCompradores falloEscritura vendedor idPublicacion fecha
        nombreArticulo resto db n

/-- The displayed article name: the JS or-expression on
`publicacion.nombre_articulo` falls back on the default for a falsy (empty)
name. -/
def nombreDe (pub : Publicacion) : String :=
  if pub.nombreArticulo = "" then "Artículo" else pub.nombreArticulo

/-- Embeds DELETE /marcar-vendido/:id (index.ts lines 606-689).  `txOk`
models whether the deletion transaction commits; on rollback the handler
returns 500 before any notification is written.  The buyer list is read
before the transaction, from the pre-deletion state. -/
def marcarVendido (falloEscritura : Nat → Bool) (txOk : Bool) (db : DB)
    (idPublicacion fecha : Nat) : RespuestaVendido :=
  match db.publicaciones.find? (fun p => p.id == idPublicacion) with
  | none => { status := 404, db := db, notificacionesCreadas := 0 }
  | some pub =>
    if txOk then
      match notificarCompradores falloEscritura pub.idUsuario idPublicacion fecha
          (nombreDe pub) (compradoresDe db idPublicacion)
          (dbTrasEliminar db idPublicacion) 0 with
      | Except.error dbParcial =>
        { status := 500, db := dbParcial, notificacionesCreadas := 0 }
      | Except.ok (db2, n) =>
        { status := 200, db := db2, notificacionesCreadas := n }
    else
      { status := 500, db := db, notificacionesCreadas := 0 }

/-- HTTP outcome of PUT /notificaciones/:id/leida. -/
structure RespuestaLeida where
  status : Nat
  db : DB
  notificacion : Option Notificacion
  deriving DecidableEq

/-- Embeds PUT /notificaciones/:id/leida (index.ts lines 431-459):
`UPDATE notificaciones SET leida = true WHERE ID_notificacion = $1
RETURNING ...`; zero updated rows is a 404. -/
def marcarLeida (db : DB) (idNotificacion : Nat) : RespuestaLeida :=
  match db.notificaciones.find? (fun n => n.id == idNotificacion) with
  | none => { status := 404, db := db, notificacion := none }
  | some n =>
    { status := 200,
      db := { db with
        notificaciones := db.notificaciones.map
          (fun m => if m.id == idNotificacion then { m with leida := true } else m) },
      notificacion := some { n with leida := true } }

/-- Newest-first order on notifications (`ORDER BY fecha_envio DESC`). -/
def masReciente (a b : Notificacion) : Prop :=
  b.fechaEnvio ≤ a.fechaEnvio

instance : DecidableRel masReciente :=
  fun a b => Nat.decLe b.fechaEnvio a.fechaEnvio

instance : IsTotal Notificacion masReciente :=
  ⟨fun a b => Nat.le_total b.fechaEnvio a.fechaEnvio⟩

instance : IsTrans Notificacion masReciente :=
  ⟨fun _ _ _ h1 h2 => Nat.le_trans h2 h1⟩

/-- Embeds GET /notificaciones/:id_usuario (index.ts lines 390-428):
`SELECT ... WHERE ID_usuario = $1 ORDER BY fecha_envio DESC LIMIT 50`. -/
def obtenerNotificaciones (db : DB) (idUsuario : Nat) : List Notificacion :=
  ((db.notificaciones.filter (fun n => n.idUsuario == idUsuario)).insertionSort
    masReciente).take 50

/-- HTTP outcome of the password-reset endpoints. -/
structure RespuestaReset where
  status : Nat
  db : DB
  deriving DecidableEq

/-- Embeds POST /enviar-correo-reset (index.ts lines 218-242); the random
six-digit code is a parameter, the outgoing email is ignored. -/
def enviarCorreoReset (codigo : String) (db : DB) (correo : String) : RespuestaReset :=
  if db.usuarios.any (fun u => u.correo == correo) then
    { status := 200,
      db := { db with codigosReset := mapSet db.codigosReset correo codigo } }
  else
    { status := 404, db := db }

/-- Embeds POST /restablecer-contrasena (index.ts lines 245-262).  The JS
guard `!codigoGuardado || codigoGuardado !== codigo` rejects a missing or
empty stored code and any mismatch; on success the password is updated and
the stored code deleted.  `updateOk` models whether the UPDATE statement
succeeds (on its failure the catch responds 500 and nothing changed).
`codigoInvalido` is the JS truthiness-and-equality guard. -/
def codigoInvalido (guardado : Option String) (codigo : String) : Bool :=
  match guardado with
  | none => true
  | some g => g == "" || !(g == codigo)

def restablecerContrasena (updateOk : Bool) (db : DB)
    (correo codigo nueva : String) : RespuestaReset :=
  if codigoInvalido (mapGet db.codigosReset correo) codigo then
    { status := 400, db := db }
  else if updateOk then
    { status := 200,
      db := { db with
        usuarios := db.usuarios.map
          (fun u => if u.correo == correo then { u with contrasena := nueva } else u),
        codigosReset := mapDelete db.codigosReset correo } }
  else
    { status := 500, db := db }

/-- A sample user row. -/
def usuarioEj (i : Nat) : Usuario :=
  { id := i, nombre := "u", correo := "u@x", contrasena := "c",
    telefono := "3000000000" }

/-- Oracle under which every notification insert succeeds. -/
def sinFallo : Nat → Bool := fun _ => false

/-- Oracle under which the insert for user 2 fails at the storage layer. -/
def fallaDos : Nat → Bool := fun u => u == 2

/-- A sale scenario: publication 10 of seller 1, in the carts of users 2 and 3. -/
def dbVenta : DB :=
  { usuarios := [usuarioEj 1, usuarioEj 2, usuarioEj 3],
    publicaciones := [{ id := 10, nombreArticulo := "Bici", idUsuario := 1 }],
    carrito := [(2, 10), (3, 10)],
    notificaciones := [],
    nextId := 0,
    codigosReset := [] }

/-- A cart scenario: user 1 adds publication 10 owned by seller 2. -/
def dbCarrito : DB :=
  { usuarios := [usuarioEj 1, usuarioEj 2],
    publicaciones := [{ id := 10, nombreArticulo := "Bici", idUsuario := 2 }],
    carrito := [],
    notificaciones := [],
    nextId := 0,
    codigosReset := [] }

/-- Like `dbCarrito`, with publication 10 already in the cart of user 1. -/
def dbCarritoDup : DB :=
  { dbCarrito with carrito := [(1, 10)] }

/-- An unread notification of user 1. -/
def notifEj : Notificacion :=
  { id := 5, idUsuario := 1, titulo := "t", cuerpo := "c", leida := false,
    fechaEnvio := 3, data := none }

/-- An already-read notification of user 1. -/
def notifLeidaEj : Notificacion :=
  { notifEj with id := 6, fechaEnvio := 4, leida := true }

/-- A notification-store scenario. -/
def dbNotifs : DB :=
  { usuarios := [usuarioEj 1],
    publicaciones := [],
    carrito := [],
    notificaciones := [notifEj, notifLeidaEj],
    nextId := 9,
    codigosReset := [] }

/-- A password-reset scenario: the code 123456 is stored for u@x. -/
def dbReset : DB :=
  { usuarios := [usuarioEj 1],
    publicaciones := [],
    carrito := [],
    notificaciones := [],
    nextId := 0,
    codigosReset := [("u@x", "123456")] }

/-- The seller notification row created by a successful notifying
/agregar-carrito on the `dbCarrito` scenario. -/
def notifVendedorEj : Notificacion :=
  { id := 0, idUsuario := 2, titulo := tituloCarrito,
    cuerpo := cuerpoCarrito "Bici", leida := false, fechaEnvio := 7,
    data := some "interes_carrito" }

example : (marcarVendido sinFallo true dbVenta 10 7).status = 200 := by decide
example : (marcarVendido sinFallo true dbVenta 10 7).notificacionesCreadas = 2 := by decide
example : ((marcarVendido sinFallo true dbVenta 10 7).db.notificaciones).length = 2 := by decide
example : (marcarVendido fallaDos true dbVenta 10 7).status = 500 := by decide
example : ((marcarVendido fallaDos true dbVenta 10 7).db.notificaciones).length = 0 := by decide
example : (marcarVendido sinFallo false dbVenta 10 7).db = dbVenta := by decide
example : (agregarCarrito sinFallo dbCarrito 1 10 7).status = 201 := by decide
example : (agregarCarrito fallaDos dbCarrito 1 10 7).status = 500 := by decide
example : (1, 10) ∈ (agregarCarrito fallaDos dbCarrito 1 10 7).db.carrito := by decide
example : (agregarCarrito sinFallo dbCarritoDup 1 10 7).status = 409 := by decide
example : (marcarLeida dbNotifs 5).status = 200 := by decide
example : (marcarLeida dbNotifs 7).status = 404 := by decide
example : (marcarLeida dbNotifs 6).db = dbNotifs := by decide
example : (obtenerNotificaciones dbNotifs 1).length = 2 := by decide
example : (obtenerNotificaciones dbNotifs 1) = [notifLeidaEj, notifEj] := by decide
example : (restablecerContrasena true dbReset "u@x" "123456" "n").status = 200 := by decide
example : (restablecerContrasena true dbReset "u@x" "999999" "n").status = 400 := by decide
example :
    mapGet (restablecerContrasena true dbReset "u@x" "123456" "n").db.codigosReset "u@x"
      = none := by decide

/-- On a successful insert, `guardarNotificacionBD` prepends exactly one row
owned by the requested user and touches nothing else. -/
theorem guardar_ok_spec (f : Nat → Bool) (db : DB) (u : Nat) (t c : String)
    (d : Option String) (fe : Nat) (i : Nat) (db2 : DB)
    (h : guardarNotificacionBD f db u t c d fe = Except.ok (i, db2)) :
    db2.usuarios = db.usuarios ∧ db2.publicaciones = db.publicaciones ∧
    db2.carrito = db.carrito ∧ db2.codigosReset = db.codigosReset ∧
    db2.notificaciones =
      { id := db.nextId, idUsuario := u, titulo := t, cuerpo := c,
        leida := false, fechaEnvio := fe, data := d } :: db.notificaciones ∧
    db2.nextId = db.nextId + 1 := by
  unfold guardarNotificacionBD at h
  split at h
  · split at h
    · exact absurd h (by simp)
    · simp only [Except.ok.injEq, Prod.mk.injEq] at h
      obtain ⟨-, h2⟩ := h
      subst h2
      exact ⟨rfl, rfl, rfl, rfl, rfl, rfl⟩
  · exact absurd h (by simp)

/-- The buyer-notification loop only ever touches the `notificaciones` table
(and the serial counter), whether it finishes or aborts on an error. -/
theorem notificar_preserva (f : Nat → Bool) (v p fe : Nat) (na : String) :
    ∀ (cs : List Nat) (db : DB) (n : Nat) (db2 : DB),
      (notificarCompradores f v p fe na cs db n = Except.error db2 ∨
        ∃ n2, notificarCompradores f v p fe na cs db n = Except.ok (db2, n2)) →
      db2.usuarios = db.usuarios ∧ db2.publicaciones = db.publicaciones ∧
      db2.carrito = db.carrito ∧ db2.codigosReset = db.codigosReset := by
  intro cs
  induction cs with
  | nil =>
    intro db n db2 h
    rcases h with h | ⟨n2, h⟩
    · exact absurd h (by simp [notificarCompradores])
    · simp only [notificarCompradores, Except.ok.injEq, Prod.mk.injEq] at h
      obtain ⟨h1, -⟩ := h
      subst h1
      exact ⟨rfl, rfl, rfl, rfl⟩
  | cons c resto ih =>
    intro db n db2 h
    simp only [notificarCompradores] at h
    by_cases hc : (c != v) = true
    · rw [if_pos hc] at h
      cases hg : guardarNotificacionBD f db c tituloVendido (cuerpoVendido na)
          (some "articulo_vendido") fe with
      | error e =>
        rw [hg] at h
        rcases h with h | ⟨n2, h⟩
        · simp only [Except.error.injEq] at h
          subst h
          exact ⟨rfl, rfl, rfl, rfl⟩
        · exact absurd h (by simp)
      | ok pr =>
        obtain ⟨i, db1⟩ := pr
        rw [hg] at h
        obtain ⟨e1, e2, e3, e4, -, -⟩ := guardar_ok_spec f db c _ _ _ fe i db1 hg
        obtain ⟨g1, g2, g3, g4⟩ := ih db1 (n + 1) db2 h
        exact ⟨g1.trans e1, g2.trans e2, g3.trans e3, g4.trans e4⟩
    · rw [if_neg hc] at h
      exact ih db n db2 h

/-- If the buyer-notification loop finishes, it has written exactly one row
per non-seller entry of the buyer list, counted per user. -/
theorem notificar_ok_spec (f : Nat → Bool) (v p fe : Nat) (na : String) :
    ∀ (cs : List Nat) (db : DB) (n : Nat) (db2 : DB) (n2 : Nat),
      notificarCompradores f v p fe na cs db n = Except.ok (db2, n2) →
      db2.notificaciones.length =
        db.notificaciones.length + (cs.filter (fun c => c != v)).length ∧
      n2 = n + (cs.filter (fun c => c != v)).length ∧
      ∀ u, db2.notificaciones.countP (fun r => r.idUsuario == u) =
        db.notificaciones.countP (fun r => r.idUsuario == u) +
          (cs.filter (fun c => c != v)).countP (fun c => c == u) := by
  intro cs
  induction cs with
  | nil =>
    intro db n db2 n2 h
    simp only [notificarCompradores, Except.ok.injEq, Prod.mk.injEq] at h
    obtain ⟨h1, h2⟩ := h
    subst h1
    subst h2
    simp
  | cons c resto ih =>
    intro db n db2 n2 h
    simp only [notificarCompradores] at h
    by_cases hc : (c != v) = true
    · rw [if_pos hc] at h
      cases hg : guardarNotificacionBD f db c tituloVendido (cuerpoVendido na)
          (some "articulo_vendido") fe with
      | error e =>
        rw [hg] at h
        exact absurd h (by simp)
      | ok pr =>
        obtain ⟨i, db1⟩ := pr
        rw [hg] at h
        obtain ⟨hlen, hn, hcount⟩ := ih db1 (n + 1) db2 n2 h
        obtain ⟨-, -, -, -, hnots, -⟩ := guardar_ok_spec f db c _ _ _ fe i db1 hg
        refine ⟨?_, ?_, ?_⟩
        · rw [hlen, hnots]
          simp only [List.filter_cons, hc, if_pos, List.length_cons]
          omega
        · rw [hn]
          simp only [List.filter_cons, hc, if_pos, List.length_cons]
          omega
        · intro u
          rw [hcount u, hnots]
          simp only [List.countP_cons, List.filter_cons, hc, if_pos]
          by_cases hcu : (c == u) = true
          · simp [hcu]
            omega
          · simp [hcu]
    · rw [if_neg hc] at h
      obtain ⟨hlen, hn, hcount⟩ := ih db n db2 n2 h
      have hf : (c :: resto).filter (fun c => c != v) =
          resto.filter (fun c => c != v) := by
        simp [List.filter_cons, hc]
      rw [hf]
      exact ⟨hlen, hn, hcount⟩

/-- If the buyer-notification loop aborts, the buyer list splits as
`pre ++ mal :: post`: the non-seller entries of `pre` each got their row, and
nothing was written for `mal` or for `post`. -/
theorem notificar_error_spec (f : Nat → Bool) (v p fe : Nat) (na : String) :
    ∀ (cs : List Nat) (db : DB) (n : Nat) (db2 : DB),
      notificarCompradores f v p fe na cs db n = Except.error db2 →
      ∃ pre mal post, cs = pre ++ mal :: post ∧ mal ≠ v ∧
        db2.notificaciones.length =
          db.notificaciones.length + (pre.filter (fun c => c != v)).length ∧
        ∀ u, db2.notificaciones.countP (fun r => r.idUsuario == u) =
          db.notificaciones.countP (fun r => r.idUsuario == u) +
            (pre.filter (fun c => c != v)).countP (fun c => c == u) := by
  intro cs
  induction cs with
  | nil =>
    intro db n db2 h
    exact absurd h (by simp [notificarCompradores])
  | cons c resto ih =>
    intro db n db2 h
    simp only [notificarCompradores] at h
    by_cases hc : (c != v) = true
    · rw [if_pos hc] at h
      cases hg : guardarNotificacionBD f db c tituloVendido (cuerpoVendido na)
          (some "articulo_vendido") fe with
      | error e =>
        rw [hg] at h
        simp only [Except.error.injEq] at h
        subst h
        refine ⟨[], c, resto, rfl, by simpa using hc, by simp, by simp⟩
      | ok pr =>
        obtain ⟨i, db1⟩ := pr
        rw [hg] at h
        obtain ⟨pre, mal, post, hcs, hmal, hlen, hcount⟩ := ih db1 (n + 1) db2 h
        obtain ⟨-, -, -, -, hnots, -⟩ := guardar_ok_spec f db c _ _ _ fe i db1 hg
        refine ⟨c :: pre, mal, post, by rw [hcs]; rfl, hmal, ?_, ?_⟩
        · rw [hlen, hnots]
          simp only [List.filter_cons, hc, if_pos, List.length_cons]
          omega
        · intro u
          rw [hcount u, hnots]
          simp only [List.countP_cons, List.filter_cons, hc, if_pos]
          by_cases hcu : (c == u) = true
          · simp [hcu]
            omega
          · simp [hcu]
    · rw [if_neg hc] at h
      obtain ⟨pre, mal, post, hcs, hmal, hlen, hcount⟩ := ih db n db2 h
      refine ⟨c :: pre, mal, post, by rw [hcs]; rfl, hmal, ?_, ?_⟩
      · rw [hlen]
        simp [List.filter_cons, hc]
      · intro u
        rw [hcount u]
        simp [List.filter_cons, hc]

/-- Every row present after the buyer-notification loop either predates the
loop or belongs to a user other than the seller. -/
theorem notificar_propietarios (f : Nat → Bool) (v p fe : Nat) (na : String) :
    ∀ (cs : List Nat) (db : DB) (n : Nat) (db2 : DB),
      (notificarCompradores f v p fe na cs db n = Except.error db2 ∨
        ∃ n2, notificarCompradores f v p fe na cs db n = Except.ok (db2, n2)) →
      ∀ r ∈ db2.notificaciones, r ∈ db.notificaciones ∨ r.idUsuario ≠ v := by
  intro cs
  induction cs with
  | nil =>
    intro db n db2 h
    rcases h with h | ⟨n2, h⟩
    · exact absurd h (by simp [notificarCompradores])
    · simp only [notificarCompradores, Except.ok.injEq, Prod.mk.injEq] at h
      obtain ⟨h1, -⟩ := h
      subst h1
      exact fun r hr => Or.inl hr
  | cons c resto ih =>
    intro db n db2 h
    simp only [notificarCompradores] at h
    by_cases hc : (c != v) = true
    · rw [if_pos hc] at h
      cases hg : guardarNotificacionBD f db c tituloVendido (cuerpoVendido na)
          (some "articulo_vendido") fe with
      | error e =>
        rw [hg] at h
        rcases h with h | ⟨n2, h⟩
        · simp only [Except.error.injEq] at h
          subst h
          exact fun r hr => Or.inl hr
        · exact absurd h (by simp)
      | ok pr =>
        obtain ⟨i, db1⟩ := pr
        rw [hg] at h
        obtain ⟨-, -, -, -, hnots, -⟩ := guardar_ok_spec f db c _ _ _ fe i db1 hg
        intro r hr
        rcases ih db1 (n + 1) db2 h r hr with hr1 | hr1
        · rw [hnots] at hr1
          rcases List.mem_cons.mp hr1 with hr2 | hr2
          · subst hr2
            exact Or.inr (by simpa using hc)
          · exact Or.inl hr2
        · exact Or.inr hr1
    · rw [if_neg hc] at h
      exact ih db n db2 h

/-- Counting occurrences in a duplicate-free list of user ids gives one for a
member and zero otherwise. -/
theorem countP_eq_of_nodup (l : List Nat) (u : Nat) (h : l.Nodup) :
    l.countP (fun c => c == u) = if u ∈ l then 1 else 0 := by
  induction l with
  | nil => simp
  | cons a t ih =>
    obtain ⟨ha, ht⟩ := List.nodup_cons.mp h
    rw [List.countP_cons]
    by_cases hau : a = u
    · subst hau
      simp [List.mem_cons, ih ht, ha]
    · simp [List.mem_cons, ih ht, hau, Ne.symm hau]

/-- If the cart has no duplicate (user, publication) row, the buyer list of a
publication has no duplicate user. -/
theorem compradores_nodup (db : DB) (idPub : Nat) (h : db.carrito.Nodup) :
    (compradoresDe db idPub).Nodup := by
  unfold compradoresDe
  refine List.Nodup.filter _ ?_
  refine List.Nodup.map_on ?_ (h.filter _)
  intro x hx y hy hxy
  have hx2 := (List.mem_filter.mp hx).2
  have hy2 := (List.mem_filter.mp hy).2
  obtain ⟨x1, x2⟩ := x
  obtain ⟨y1, y2⟩ := y
  simp_all

/-- Deleting a key from the reset-code map makes lookups of that key miss. -/
theorem mapGet_mapDelete (m : List (String × String)) (k : String) :
    mapGet (mapDelete m k) k = none := by
  induction m with
  | nil => rfl
  | cons a t ih =>
    obtain ⟨a1, a2⟩ := a
    unfold mapDelete at ih ⊢
    rw [List.filter_cons]
    by_cases hk : a1 = k
    · simp [hk, ih]
    · simp [hk, mapGet, ih]

/-- C4: PUT /notificaciones/:id/leida fails with 404 (NotFoundError) exactly
when no notification row carries the given id; when a row does, it responds
200 with that row updated to read. -/
theorem marcarLeida_noEncontrada (db : DB) (idN : Nat) :
    ((marcarLeida db idN).status = 404 ↔ ∀ n ∈ db.notificaciones, n.id ≠ idN) ∧
    ∀ n, db.notificaciones.find? (fun m => m.id == idN) = some n →
      (marcarLeida db idN).status = 200 ∧
      (marcarLeida db idN).notificacion = some { n with leida := true } := by
  unfold marcarLeida
  cases hf : db.notificaciones.find? (fun m => m.id == idN) with
  | none =>
    refine ⟨⟨fun _ n hn => ?_, fun _ => rfl⟩, fun n hn => by simp at hn⟩
    have := List.find?_eq_none.mp hf n hn
    simpa using this
  | some n0 =>
    have hmem := List.mem_of_find?_eq_some hf
    have hid : n0.id = idN := by simpa using List.find?_some hf
    refine ⟨⟨fun h => by simp at h, fun hall => absurd hid (hall n0 hmem)⟩, ?_⟩
    intro n hn
    simp only [Option.some.injEq] at hn
    subst hn
    exact ⟨rfl, rfl⟩

/-- C4 witness. -/
theorem marcarLeida_noEncontrada_testigo :
    (marcarLeida dbNotifs 5).status = 200 ∧
    (marcarLeida dbNotifs 5).notificacion = some { notifEj with leida := true } :=
  (marcarLeida_noEncontrada dbNotifs 5).2 notifEj (by decide)

/-- C5: marking an already-read record as read responds 200 and changes
nothing, and no mark-as-read call ever changes any field other than the read
flag. -/
theorem marcarLeida_idempotente (db : DB) (idN : Nat)
    (hmem : ∃ n ∈ db.notificaciones, n.id = idN)
    (hleida : ∀ n ∈ db.notificaciones, n.id = idN → n.leida = true) :
    ((marcarLeida db idN).status = 200 ∧ (marcarLeida db idN).db = db) ∧
    ∀ (db2 : DB) (i : Nat),
      (marcarLeida db2 i).db.notificaciones.map
        (fun n => (n.id, n.idUsuario, n.titulo, n.cuerpo, n.fechaEnvio, n.data)) =
      db2.notificaciones.map
        (fun n => (n.id, n.idUsuario, n.titulo, n.cuerpo, n.fechaEnvio, n.data)) := by
  constructor
  · obtain ⟨n0, hn0, hid⟩ := hmem
    have hsome : (db.notificaciones.find? (fun m => m.id == idN)).isSome := by
      rw [List.find?_isSome]
      exact ⟨n0, hn0, by simpa using hid⟩
    have hmapid : db.notificaciones.map
        (fun m => if m.id == idN then { m with leida := true } else m) =
        db.notificaciones := by
      conv_rhs => rw [← List.map_id db.notificaciones]
      refine List.map_congr_left ?_
      intro a ha
      by_cases hid2 : (a.id == idN) = true
      · have hl := hleida a ha (by simpa using hid2)
        obtain ⟨i1, i2, i3, i4, i5, i6, i7⟩ := a
        simp only [hid2, if_pos]
        simp only at hl
        rw [hl]
        rfl
      · simp [hid2]
    unfold marcarLeida
    cases hf : db.notificaciones.find? (fun m => m.id == idN) with
    | none => rw [hf] at hsome; simp at hsome
    | some m =>
      refine ⟨rfl, ?_⟩
      show { db with notificaciones := _ } = db
      rw [hmapid]
  · intro db2 i
    have hcases : (marcarLeida db2 i).db.notificaciones = db2.notificaciones ∨
        (marcarLeida db2 i).db.notificaciones = db2.notificaciones.map
          (fun m => if m.id == i then { m with leida := true } else m) := by
      unfold marcarLeida
      cases hf : db2.notificaciones.find? (fun m => m.id == i) with
      | none => exact Or.inl rfl
      | some m => exact Or.inr rfl
    rcases hcases with h | h
    · rw [h]
    · rw [h, List.map_map]
      refine List.map_congr_left ?_
      intro a _
      by_cases hid2 : (a.id == i) = true <;> simp [Function.comp, hid2]

/-- C5 witness. -/
theorem marcarLeida_idempotente_testigo :
    ((marcarLeida dbNotifs 6).status = 200 ∧ (marcarLeida dbNotifs 6).db = dbNotifs) ∧
    (marcarLeida dbNotifs 5).db.notificaciones.map
      (fun n => (n.id, n.idUsuario, n.titulo, n.cuerpo, n.fechaEnvio, n.data)) =
    dbNotifs.notificaciones.map
      (fun n => (n.id, n.idUsuario, n.titulo, n.cuerpo, n.fechaEnvio, n.data)) := by
  have h := marcarLeida_idempotente dbNotifs 6
    ⟨notifLeidaEj, by decide, by decide⟩ (by decide)
  exact ⟨h.1, h.2 dbNotifs 5⟩

/-- C6: GET /notificaciones/:id_usuario returns at most 50 rows, ordered
newest first, and only rows of that user taken from the store. -/
theorem obtenerNotificaciones_spec (db : DB) (u : Nat) :
    (obtenerNotificaciones db u).length ≤ 50 ∧
    List.Sorted masReciente (obtenerNotificaciones db u) ∧
    ∀ n ∈ obtenerNotificaciones db u, n.idUsuario = u ∧ n ∈ db.notificaciones := by
  refine ⟨?_, ?_, ?_⟩
  · exact List.length_take_le _ _
  · exact List.Pairwise.sublist (List.take_sublist _ _)
      (List.sorted_insertionSort masReciente _)
  · intro n hn
    have hn2 : n ∈ (db.notificaciones.filter
        (fun n => n.idUsuario == u)).insertionSort masReciente :=
      List.take_subset _ _ hn
    have hn3 : n ∈ db.notificaciones.filter (fun n => n.idUsuario == u) :=
      (List.perm_insertionSort masReciente _).mem_iff.mp hn2
    have hn4 := List.mem_filter.mp hn3
    exact ⟨by simpa using hn4.2, hn4.1⟩

/-- C6 witness. -/
theorem obtenerNotificaciones_spec_testigo :
    (obtenerNotificaciones dbNotifs 1).length ≤ 50 ∧
    notifEj.idUsuario = 1 ∧ notifEj ∈ dbNotifs.notificaciones :=
  ⟨(obtenerNotificaciones_spec dbNotifs 1).1,
    (obtenerNotificaciones_spec dbNotifs 1).2.2 notifEj (by decide)⟩


/-- When no code is stored for the address, /restablecer-contrasena rejects
the request with 400 and changes nothing. -/
theorem restablecer_sin_codigo (upd : Bool) (db : DB) (correo codigo nueva : String)
    (h : mapGet db.codigosReset correo = none) :
    restablecerContrasena upd db correo codigo nueva = { status := 400, db := db } := by
  unfold restablecerContrasena
  rw [h]
  rfl

/-- C8: a submitted code different from the stored one (or with no stored
one) yields 400 with the whole state — in particular every stored password —
unchanged; after a successful reset the stored code is gone, so the very same
request is rejected with 400 and no further change. -/
theorem restablecerContrasena_spec (upd : Bool) (db : DB) (correo codigo nueva : String) :
    ((∀ g, mapGet db.codigosReset correo = some g → g ≠ codigo) →
      restablecerContrasena upd db correo codigo nueva = { status := 400, db := db }) ∧
    ((restablecerContrasena upd db correo codigo nueva).status = 200 →
      mapGet (restablecerContrasena upd db correo codigo nueva).db.codigosReset correo
          = none ∧
      ∀ (upd2 : Bool) (nueva2 : String),
        restablecerContrasena upd2 (restablecerContrasena upd db correo codigo nueva).db
            correo codigo nueva2 =
          { status := 400, db := (restablecerContrasena upd db correo codigo nueva).db }) := by
  constructor
  · intro hno
    cases hg : mapGet db.codigosReset correo with
    | none => exact restablecer_sin_codigo upd db correo codigo nueva hg
    | some g =>
      have hne : g ≠ codigo := hno g hg
      have hb : codigoInvalido (mapGet db.codigosReset correo) codigo = true := by
        rw [hg]
        simp [codigoInvalido, hne]
      unfold restablecerContrasena
      rw [if_pos hb]
  · intro h200
    have hnone : mapGet (restablecerContrasena upd db correo codigo nueva).db.codigosReset
        correo = none := by
      unfold restablecerContrasena at h200 ⊢
      by_cases hb : codigoInvalido (mapGet db.codigosReset correo) codigo = true
      · rw [if_pos hb] at h200
        simp at h200
      · rw [if_neg hb] at h200 ⊢
        cases upd with
        | false => simp at h200
        | true =>
          rw [if_pos rfl]
          exact mapGet_mapDelete _ _
    exact ⟨hnone, fun upd2 nueva2 =>
      restablecer_sin_codigo upd2 _ correo codigo nueva2 hnone⟩

/-- C8 witness. -/
theorem restablecerContrasena_spec_testigo :
    restablecerContrasena true dbReset "u@x" "999999" "n" =
      { status := 400, db := dbReset } ∧
    mapGet (restablecerContrasena true dbReset "u@x" "123456" "n").db.codigosReset "u@x"
      = none := by
  constructor
  · refine (restablecerContrasena_spec true dbReset "u@x" "999999" "n").1 ?_
    intro g hg
    have hv : mapGet dbReset.codigosReset "u@x" = some "123456" := by decide
    rw [hv] at hg
    injection hg with hg2
    rw [← hg2]
    decide
  · exact ((restablecerContrasena_spec true dbReset "u@x" "123456" "n").2 (by decide)).1

/-- C9: adding a duplicate (user, publication) pair to the cart is rejected
with 409 and changes nothing; conversely, any change to the cart or the
notification store by /agregar-carrito requires that the user existed, the
publication existed, and the pair was not yet in the cart. -/
theorem agregarCarrito_duplicado (f : Nat → Bool) (db : DB) (idU idPub fecha : Nat) :
    (((idU == 0 || idPub == 0) = false) →
      db.usuarios.any (fun x => x.id == idU) = true →
      db.publicaciones.any (fun pb => pb.id == idPub) = true →
      db.carrito.any (fun pr => pr.1 == idU && pr.2 == idPub) = true →
      agregarCarrito f db idU idPub fecha =
        { status := 409, db := db, notificacionCreada := false }) ∧
    (((agregarCarrito f db idU idPub fecha).db.carrito ≠ db.carrito ∨
      (agregarCarrito f db idU idPub fecha).db.notificaciones ≠ db.notificaciones) →
      db.usuarios.any (fun x => x.id == idU) = true ∧
      db.publicaciones.any (fun pb => pb.id == idPub) = true ∧
      db.carrito.any (fun pr => pr.1 == idU && pr.2 == idPub) = false) := by
  constructor
  · intro h0 hu hp hc
    unfold agregarCarrito
    rw [if_neg (by simp [h0]), if_neg (by simp [hu]), if_neg (by simp [hp]), if_pos hc]
  · intro hne
    unfold agregarCarrito at hne
    by_cases h0 : (idU == 0 || idPub == 0) = true
    · rw [if_pos h0] at hne
      simp at hne
    · rw [if_neg h0] at hne
      by_cases hu : db.usuarios.any (fun x => x.id == idU) = true
      · rw [if_neg (by simp [hu])] at hne
        by_cases hp : db.publicaciones.any (fun pb => pb.id == idPub) = true
        · rw [if_neg (by simp [hp])] at hne
          by_cases hc : db.carrito.any (fun pr => pr.1 == idU && pr.2 == idPub) = true
          · rw [if_pos hc] at hne
            simp at hne
          · rw [Bool.not_eq_true] at hc
            exact ⟨hu, hp, hc⟩
        · rw [Bool.not_eq_true] at hp
          rw [if_pos (by simp [hp])] at hne
          simp at hne
      · rw [Bool.not_eq_true] at hu
        rw [if_pos (by simp [hu])] at hne
        simp at hne

/-- C9 witness. -/
theorem agregarCarrito_duplicado_testigo :
    agregarCarrito sinFallo dbCarritoDup 1 10 7 =
      { status := 409, db := dbCarritoDup, notificacionCreada := false } :=
  (agregarCarrito_duplicado sinFallo dbCarritoDup 1 10 7).1
    (by decide) (by decide) (by decide) (by decide)

/-- Evaluation of /marcar-vendido when the publication is missing. -/
theorem marcarVendido_eq_404 (f : Nat → Bool) (txOk : Bool) (db : DB) (idPub fecha : Nat)
    (hpub : db.publicaciones.find? (fun pb => pb.id == idPub) = none) :
    marcarVendido f txOk db idPub fecha =
      { status := 404, db := db, notificacionesCreadas := 0 } := by
  unfold marcarVendido
  split
  · rfl
  · rename_i pub2 heq
    rw [hpub] at heq
    cases heq

/-- Evaluation of /marcar-vendido when the deletion transaction rolls back. -/
theorem marcarVendido_eq_txFalso (f : Nat → Bool) (db : DB) (idPub fecha : Nat)
    (pub : Publicacion)
    (hpub : db.publicaciones.find? (fun pb => pb.id == idPub) = some pub) :
    marcarVendido f false db idPub fecha =
      { status := 500, db := db, notificacionesCreadas := 0 } := by
  unfold marcarVendido
  split
  · rename_i heq
    rw [hpub] at heq
    cases heq
  · rename_i pub2 heq
    rw [if_neg (by simp)]

/-- Evaluation of /marcar-vendido when the buyer-notification loop finishes. -/
theorem marcarVendido_eq_ok (f : Nat → Bool) (db : DB) (idPub fecha : Nat)
    (pub : Publicacion) (dbF : DB) (n : Nat)
    (hpub : db.publicaciones.find? (fun pb => pb.id == idPub) = some pub)
    (hloop : notificarCompradores f pub.idUsuario idPub fecha (nombreDe pub)
        (compradoresDe db idPub) (dbTrasEliminar db idPub) 0 = Except.ok (dbF, n)) :
    marcarVendido f true db idPub fecha =
      { status := 200, db := dbF, notificacionesCreadas := n } := by
  unfold marcarVendido
  split
  · rename_i heq
    rw [hpub] at heq
    cases heq
  · rename_i pub2 heq
    rw [hpub] at heq
    injection heq with heq2
    subst heq2
    rw [if_pos rfl]
    split
    · rename_i dbP hl2
      rw [hloop] at hl2
      cases hl2
    · rename_i dbF2 n2 hl2
      rw [hloop] at hl2
      injection hl2 with hl3
      injection hl3 with h1 h2
      subst h1
      subst h2
      rfl

/-- Evaluation of /marcar-vendido when the buyer-notification loop aborts. -/
theorem marcarVendido_eq_error (f : Nat → Bool) (db : DB) (idPub fecha : Nat)
    (pub : Publicacion) (dbP : DB)
    (hpub : db.publicaciones.find? (fun pb => pb.id == idPub) = some pub)
    (hloop : notificarCompradores f pub.idUsuario idPub fecha (nombreDe pub)
        (compradoresDe db idPub) (dbTrasEliminar db idPub) 0 = Except.error dbP) :
    marcarVendido f true db idPub fecha =
      { status := 500, db := dbP, notificacionesCreadas := 0 } := by
  unfold marcarVendido
  split
  · rename_i heq
    rw [hpub] at heq
    cases heq
  · rename_i pub2 heq
    rw [hpub] at heq
    injection heq with heq2
    subst heq2
    rw [if_pos rfl]
    split
    · rename_i dbP2 hl2
      rw [hloop] at hl2
      injection hl2 with hl3
      subst hl3
      rfl
    · rename_i dbF2 n2 hl2
      rw [hloop] at hl2
      cases hl2

/-- C1: when /marcar-vendido succeeds, exactly one notification row has been
written per unique explicitly targeted user — the buyers of the publication
other than the seller — |U| rows in total; the embedded handler consults no
push token and makes no transport call, so this holds independently of
both. -/
theorem marcarVendido_registro_por_objetivo (f : Nat → Bool) (txOk : Bool) (db : DB)
    (idPub fecha : Nat) (pub : Publicacion)
    (hnd : db.carrito.Nodup)
    (hpub : db.publicaciones.find? (fun pb => pb.id == idPub) = some pub)
    (h200 : (marcarVendido f txOk db idPub fecha).status = 200) :
    ((marcarVendido f txOk db idPub fecha).db.notificaciones).length =
      db.notificaciones.length +
        ((compradoresDe db idPub).filter (fun c => c != pub.idUsuario)).length ∧
    ∀ u, ((marcarVendido f txOk db idPub fecha).db.notificaciones).countP
        (fun r => r.idUsuario == u) =
      db.notificaciones.countP (fun r => r.idUsuario == u) +
        (if u ∈ (compradoresDe db idPub).filter (fun c => c != pub.idUsuario)
          then 1 else 0) := by
  cases txOk with
  | false =>
    rw [marcarVendido_eq_txFalso f db idPub fecha pub hpub] at h200
    simp at h200
  | true =>
    cases hl : notificarCompradores f pub.idUsuario idPub fecha (nombreDe pub)
        (compradoresDe db idPub) (dbTrasEliminar db idPub) 0 with
    | error dbP =>
      rw [marcarVendido_eq_error f db idPub fecha pub dbP hpub hl] at h200
      simp at h200
    | ok pr =>
      obtain ⟨dbF, n⟩ := pr
      rw [marcarVendido_eq_ok f db idPub fecha pub dbF n hpub hl]
      obtain ⟨hlen, -, hcount⟩ := notificar_ok_spec f pub.idUsuario idPub fecha
        (nombreDe pub) (compradoresDe db idPub) (dbTrasEliminar db idPub) 0 dbF n hl
      constructor
      · show dbF.notificaciones.length = _
        rw [hlen]
        rfl
      · intro u
        show dbF.notificaciones.countP _ = _
        rw [hcount u]
        have hnod : ((compradoresDe db idPub).filter (fun c => c != pub.idUsuario)).Nodup :=
          List.Nodup.filter _ (compradores_nodup db idPub hnd)
        rw [countP_eq_of_nodup _ u hnod]
        rfl

/-- C1 witness. -/
theorem marcarVendido_registro_por_objetivo_testigo :
    ((marcarVendido sinFallo true dbVenta 10 7).db.notificaciones).length =
      dbVenta.notificaciones.length +
        ((compradoresDe dbVenta 10).filter (fun c => c != (1 : Nat))).length ∧
    ((marcarVendido sinFallo true dbVenta 10 7).db.notificaciones).countP
        (fun r => r.idUsuario == 2) =
      dbVenta.notificaciones.countP (fun r => r.idUsuario == 2) +
        (if 2 ∈ (compradoresDe dbVenta 10).filter (fun c => c != (1 : Nat))
          then 1 else 0) := by
  have h := marcarVendido_registro_por_objetivo sinFallo true dbVenta 10 7
    { id := 10, nombreArticulo := "Bici", idUsuario := 1 }
    (by decide) (by decide) (by decide)
  exact ⟨h.1, h.2 2⟩

/-- C2 counterexample: with buyers 2 and 3 in the cart and the insert for
user 2 failing, /marcar-vendido responds 500 — the write error is thrown to
the request-level catch instead of being reported in a success payload — and
no record at all is written for the remaining user 3: the loop did not
continue. -/
theorem marcarVendido_fallo_contraejemplo :
    (marcarVendido fallaDos true dbVenta 10 7).status = 500 ∧
    ((marcarVendido fallaDos true dbVenta 10 7).db.notificaciones).countP
      (fun r => r.idUsuario == 3) = 0 := by
  exact ⟨by decide, by decide⟩

/-- C2 (amended): a failure to write the record of one user aborts the loop at
that user: the handler responds 500 carrying the partial state, in which the
non-seller buyers before the failing one each have their row and nothing was
written for the failing buyer or those after it. -/
theorem marcarVendido_fallo_aborta (f : Nat → Bool) (db dbP : DB)
    (idPub fecha : Nat) (pub : Publicacion)
    (hpub : db.publicaciones.find? (fun pb => pb.id == idPub) = some pub)
    (hloop : notificarCompradores f pub.idUsuario idPub fecha (nombreDe pub)
        (compradoresDe db idPub) (dbTrasEliminar db idPub) 0 = Except.error dbP) :
    (marcarVendido f true db idPub fecha).status = 500 ∧
    (marcarVendido f true db idPub fecha).db = dbP ∧
    ∃ pre mal post, compradoresDe db idPub = pre ++ mal :: post ∧
      mal ≠ pub.idUsuario ∧
      dbP.notificaciones.length =
        db.notificaciones.length +
          (pre.filter (fun c => c != pub.idUsuario)).length := by
  have heq := marcarVendido_eq_error f db idPub fecha pub dbP hpub hloop
  obtain ⟨pre, mal, post, hcs, hmal, hlen, -⟩ :=
    notificar_error_spec f pub.idUsuario idPub fecha (nombreDe pub)
      (compradoresDe db idPub) (dbTrasEliminar db idPub) 0 dbP hloop
  refine ⟨by rw [heq], by rw [heq], pre, mal, post, hcs, hmal, ?_⟩
  rw [hlen]
  rfl

/-- C2 witness for the amended claim. -/
theorem marcarVendido_fallo_aborta_testigo :
    (marcarVendido fallaDos true dbVenta 10 7).status = 500 ∧
    (marcarVendido fallaDos true dbVenta 10 7).db = dbTrasEliminar dbVenta 10 := by
  have h := marcarVendido_fallo_aborta fallaDos dbVenta (dbTrasEliminar dbVenta 10) 10 7
    { id := 10, nombreArticulo := "Bici", idUsuario := 1 } (by decide) (by rfl)
  exact ⟨h.1, h.2.1⟩

/-- C10: the final state of /marcar-vendido has either both deletions
applied or neither (they are one transaction); a rolled-back transaction
yields an error response with the state — hence the notification store —
unchanged; and any notification write implies the deletions committed. -/
theorem marcarVendido_transaccion (f : Nat → Bool) (txOk : Bool) (db : DB)
    (idPub fecha : Nat) :
    (((marcarVendido f txOk db idPub fecha).db.publicaciones =
        db.publicaciones.filter (fun pb => !(pb.id == idPub)) ∧
      (marcarVendido f txOk db idPub fecha).db.carrito =
        db.carrito.filter (fun pr => !(pr.2 == idPub))) ∨
     ((marcarVendido f txOk db idPub fecha).db.publicaciones = db.publicaciones ∧
      (marcarVendido f txOk db idPub fecha).db.carrito = db.carrito)) ∧
    (txOk = false →
      (marcarVendido f txOk db idPub fecha).status ≠ 200 ∧
      (marcarVendido f txOk db idPub fecha).db = db) ∧
    ((marcarVendido f txOk db idPub fecha).db.notificaciones ≠ db.notificaciones →
      txOk = true ∧
      (marcarVendido f txOk db idPub fecha).db.carrito =
        db.carrito.filter (fun pr => !(pr.2 == idPub))) := by
  cases hpub : db.publicaciones.find? (fun pb => pb.id == idPub) with
  | none =>
    rw [marcarVendido_eq_404 f txOk db idPub fecha hpub]
    exact ⟨Or.inr ⟨rfl, rfl⟩, fun _ => ⟨by simp, rfl⟩, fun hne => absurd rfl hne⟩
  | some pub =>
    cases txOk with
    | false =>
      rw [marcarVendido_eq_txFalso f db idPub fecha pub hpub]
      exact ⟨Or.inr ⟨rfl, rfl⟩, fun _ => ⟨by simp, rfl⟩, fun hne => absurd rfl hne⟩
    | true =>
      cases hl : notificarCompradores f pub.idUsuario idPub fecha (nombreDe pub)
          (compradoresDe db idPub) (dbTrasEliminar db idPub) 0 with
      | error dbP =>
        rw [marcarVendido_eq_error f db idPub fecha pub dbP hpub hl]
        obtain ⟨-, hpres, hcar, -⟩ := notificar_preserva f pub.idUsuario idPub fecha
          (nombreDe pub) (compradoresDe db idPub) (dbTrasEliminar db idPub) 0 dbP
          (Or.inl hl)
        refine ⟨Or.inl ⟨?_, ?_⟩, fun h => Bool.noConfusion h, fun _ => ⟨rfl, ?_⟩⟩
        · show dbP.publicaciones = _
          rw [hpres]
          rfl
        · show dbP.carrito = _
          rw [hcar]
          rfl
        · show dbP.carrito = _
          rw [hcar]
          rfl
      | ok pr =>
        obtain ⟨dbF, n⟩ := pr
        rw [marcarVendido_eq_ok f db idPub fecha pub dbF n hpub hl]
        obtain ⟨-, hpres, hcar, -⟩ := notificar_preserva f pub.idUsuario idPub fecha
          (nombreDe pub) (compradoresDe db idPub) (dbTrasEliminar db idPub) 0 dbF
          (Or.inr ⟨n, hl⟩)
        refine ⟨Or.inl ⟨?_, ?_⟩, fun h => Bool.noConfusion h, fun _ => ⟨rfl, ?_⟩⟩
        · show dbF.publicaciones = _
          rw [hpres]
          rfl
        · show dbF.carrito = _
          rw [hcar]
          rfl
        · show dbF.carrito = _
          rw [hcar]
          rfl

/-- C10 witness. -/
theorem marcarVendido_transaccion_testigo :
    (marcarVendido sinFallo false dbVenta 10 7).status ≠ 200 ∧
    (marcarVendido sinFallo false dbVenta 10 7).db = dbVenta :=
  (marcarVendido_transaccion sinFallo false dbVenta 10 7).2.1 rfl

/-- Case analysis of /agregar-carrito on the notification store: either it is
untouched (and no notification was reported created), or the publication was
found, its seller is truthy and distinct from the acting user, and exactly
the row of the seller was prepended. -/
theorem agregarCarrito_casos (f : Nat → Bool) (db : DB) (idU idPub fecha : Nat) :
    ((agregarCarrito f db idU idPub fecha).db.notificaciones = db.notificaciones ∧
      (agregarCarrito f db idU idPub fecha).notificacionCreada = false) ∨
    (∃ pub, db.publicaciones.find? (fun pb => pb.id == idPub) = some pub ∧
      (pub.idUsuario != 0 && pub.idUsuario != idU) = true ∧
      (agregarCarrito f db idU idPub fecha).db.notificaciones =
        { id := db.nextId, idUsuario := pub.idUsuario, titulo := tituloCarrito,
          cuerpo := cuerpoCarrito pub.nombreArticulo, leida := false,
          fechaEnvio := fecha, data := some "interes_carrito" } :: db.notificaciones ∧
      (agregarCarrito f db idU idPub fecha).notificacionCreada = true) := by
  unfold agregarCarrito
  split
  · exact Or.inl ⟨rfl, rfl⟩
  split
  · exact Or.inl ⟨rfl, rfl⟩
  split
  · exact Or.inl ⟨rfl, rfl⟩
  split
  · exact Or.inl ⟨rfl, rfl⟩
  split
  · exact Or.inl ⟨rfl, rfl⟩
  rename_i pub heq
  split
  · exact Or.inl ⟨rfl, rfl⟩
  split
  · rename_i hguard
    split
    · rename_i e hg
      exact Or.inl ⟨rfl, rfl⟩
    · rename_i i db2 hg
      obtain ⟨-, -, -, -, hnots, -⟩ := guardar_ok_spec f
        (dbConCarrito db idU idPub) pub.idUsuario _ _ _ fecha i db2 hg
      exact Or.inr ⟨pub, heq, hguard, by rw [hnots]; rfl, rfl⟩
  · exact Or.inl ⟨rfl, rfl⟩

/-- C7: neither trigger notifies the acting user: every notification row
present after /agregar-carrito is an old row or belongs to a user other than
the cart-adder; every row present after /marcar-vendido is an old row or
belongs to a user other than the seller; and when /agregar-carrito reports a
notification created it wrote exactly one row (for its one targeted id). -/
theorem notificaciones_excluyen_actor (f : Nat → Bool) (txOk : Bool) (db : DB)
    (idU idPub fecha : Nat) (pub : Publicacion) :
    (∀ r ∈ (agregarCarrito f db idU idPub fecha).db.notificaciones,
      r ∈ db.notificaciones ∨ r.idUsuario ≠ idU) ∧
    (db.publicaciones.find? (fun pb => pb.id == idPub) = some pub →
      ∀ r ∈ (marcarVendido f txOk db idPub fecha).db.notificaciones,
        r ∈ db.notificaciones ∨ r.idUsuario ≠ pub.idUsuario) ∧
    ((agregarCarrito f db idU idPub fecha).notificacionCreada = true →
      (agregarCarrito f db idU idPub fecha).db.notificaciones.length =
        db.notificaciones.length + 1) := by
  refine ⟨?_, ?_, ?_⟩
  · intro r hr
    rcases agregarCarrito_casos f db idU idPub fecha with
      ⟨h1, -⟩ | ⟨pub2, -, hguard, hnots, -⟩
    · rw [h1] at hr
      exact Or.inl hr
    · rw [hnots] at hr
      rcases List.mem_cons.mp hr with hr2 | hr2
      · subst hr2
        refine Or.inr ?_
        have hne := hguard
        simp only [Bool.and_eq_true, bne_iff_ne] at hne
        exact hne.2
      · exact Or.inl hr2
  · intro hpub r hr
    cases txOk with
    | false =>
      rw [marcarVendido_eq_txFalso f db idPub fecha pub hpub] at hr
      exact Or.inl hr
    | true =>
      cases hl : notificarCompradores f pub.idUsuario idPub fecha (nombreDe pub)
          (compradoresDe db idPub) (dbTrasEliminar db idPub) 0 with
      | error dbP =>
        rw [marcarVendido_eq_error f db idPub fecha pub dbP hpub hl] at hr
        exact notificar_propietarios f pub.idUsuario idPub fecha (nombreDe pub)
          (compradoresDe db idPub) (dbTrasEliminar db idPub) 0 dbP (Or.inl hl) r hr
      | ok pr =>
        obtain ⟨dbF, n⟩ := pr
        rw [marcarVendido_eq_ok f db idPub fecha pub dbF n hpub hl] at hr
        exact notificar_propietarios f pub.idUsuario idPub fecha (nombreDe pub)
          (compradoresDe db idPub) (dbTrasEliminar db idPub) 0 dbF
          (Or.inr ⟨n, hl⟩) r hr
  · intro hcreada
    rcases agregarCarrito_casos f db idU idPub fecha with
      ⟨-, h2⟩ | ⟨pub2, -, -, hnots, -⟩
    · rw [h2] at hcreada
      exact Bool.noConfusion hcreada
    · rw [hnots]
      rfl

/-- C7 witness. -/
theorem notificaciones_excluyen_actor_testigo :
    notifVendedorEj ∈ dbCarrito.notificaciones ∨ notifVendedorEj.idUsuario ≠ 1 :=
  (notificaciones_excluyen_actor sinFallo true dbCarrito 1 10 7
    { id := 10, nombreArticulo := "Bici", idUsuario := 2 }).1 notifVendedorEj (by decide)

/-- C3 counterexample: user 1 adds publication 10 of seller 2 to the cart
and the notification append for seller 2 fails; /agregar-carrito does not
catch and count the failure — it responds 500, a request failure, the cart
row having already been inserted and no notification row existing. -/
theorem agregarCarrito_fallo_contraejemplo :
    (agregarCarrito fallaDos dbCarrito 1 10 7).status = 500 ∧
    (1, 10) ∈ (agregarCarrito fallaDos dbCarrito 1 10 7).db.carrito ∧
    (agregarCarrito fallaDos dbCarrito 1 10 7).db.notificaciones = [] :=
  ⟨by decide, by decide, by decide⟩

/-- C3 (amended): the notification append fails with `ReferentialError`
exactly when the owning user reference is invalid, and succeeds for a valid
owner absent any other storage failure; but the triggering caller does not
catch and count an append failure: /agregar-carrito propagates it as a 500
request failure, with the already-inserted cart row remaining. -/
theorem guardarNotificacion_referencial (f : Nat → Bool) (db : DB) (u : Nat)
    (t c : String) (d : Option String) (fecha : Nat) :
    (guardarNotificacionBD f db u t c d fecha = Except.error DBError.referential ↔
      db.usuarios.any (fun x => x.id == u) = false) ∧
    (db.usuarios.any (fun x => x.id == u) = true → f u = false →
      ∃ db2, guardarNotificacionBD f db u t c d fecha = Except.ok (db.nextId, db2)) ∧
    (∀ (db0 : DB) (idU idPub fe : Nat) (pub : Publicacion),
      (idU == 0 || idPub == 0) = false →
      db0.usuarios.any (fun x => x.id == idU) = true →
      db0.publicaciones.any (fun pb => pb.id == idPub) = true →
      db0.carrito.any (fun pr => pr.1 == idU && pr.2 == idPub) = false →
      db0.publicaciones.find? (fun pb => pb.id == idPub) = some pub →
      db0.usuarios.any (fun x => x.id == pub.idUsuario) = true →
      (pub.idUsuario != 0 && pub.idUsuario != idU) = true →
      f pub.idUsuario = true →
      (agregarCarrito f db0 idU idPub fe).status = 500 ∧
      (idU, idPub) ∈ (agregarCarrito f db0 idU idPub fe).db.carrito) := by
  refine ⟨?_, ?_, ?_⟩
  · unfold guardarNotificacionBD
    by_cases ha : db.usuarios.any (fun x => x.id == u) = true
    · rw [if_pos ha]
      by_cases hf : f u = true
      · rw [if_pos hf]
        constructor
        · intro h
          simp at h
        · intro h
          rw [ha] at h
          exact Bool.noConfusion h
      · rw [if_neg hf]
        constructor
        · intro h
          simp at h
        · intro h
          rw [ha] at h
          exact Bool.noConfusion h
    · rw [if_neg ha]
      rw [Bool.not_eq_true] at ha
      exact ⟨fun _ => ha, fun _ => rfl⟩
  · intro ha hf
    unfold guardarNotificacionBD
    rw [if_pos ha, if_neg (by simp [hf])]
    exact ⟨_, rfl⟩
  · intro db0 idU idPub fe pub h0 hu hp hc hfind hv hguard hfail
    unfold agregarCarrito
    rw [if_neg (by simp [h0]), if_neg (by simp [hu]), if_neg (by simp [hp]),
      if_neg (by simp [hc])]
    split
    · rename_i heq
      rw [hfind] at heq
      cases heq
    · rename_i pub2 heq
      rw [hfind] at heq
      injection heq with heq2
      subst heq2
      rw [if_neg (by simp [hv]), if_pos hguard]
      have hfailres : guardarNotificacionBD f (dbConCarrito db0 idU idPub) pub.idUsuario
          tituloCarrito (cuerpoCarrito pub.nombreArticulo) (some "interes_carrito") fe =
          Except.error DBError.transient := by
        unfold guardarNotificacionBD
        rw [if_pos (show (dbConCarrito db0 idU idPub).usuarios.any
          (fun x => x.id == pub.idUsuario) = true from hv), if_pos hfail]
      rw [hfailres]
      exact ⟨rfl, List.mem_cons_self _ _⟩

/-- C3 witness for the amended claim. -/
theorem guardarNotificacion_referencial_testigo :
    guardarNotificacionBD sinFallo dbCarrito 99 "t" "c" none 7 =
        Except.error DBError.referential ∧
    (agregarCarrito fallaDos dbCarrito 1 10 7).status = 500 ∧
    (1, 10) ∈ (agregarCarrito fallaDos dbCarrito 1 10 7).db.carrito := by
  refine ⟨(guardarNotificacion_referencial sinFallo dbCarrito 99 "t" "c" none 7).1.mpr
    (by decide), ?_⟩
  exact (guardarNotificacion_referencial fallaDos dbCarrito 99 "t" "c" none 7).2.2
    dbCarrito 1 10 7 { id := 10, nombreArticulo := "Bici", idUsuario := 2 }
    (by decide) (by decide) (by decide) (by decide) (by decide) (by decide)
    (by decide) rfl
